import Mathlib

/-!
Verification development for the SENDY pass-and-play board game
(single source file `src/app/page.tsx`). The game's logical core —
board construction, die-roll movement with exact-landing/bounce-back,
landing resolution (including the back-5 relocation), acknowledgement
handling, turn advance, timer bookkeeping, lobby management and the
persisted-snapshot load guard — is embedded below as executable Lean
definitions, translated directly from the source. Presentation-only
code (styling, layout, SVG decor) is out of scope.
-/

namespace Sendy

/-! ## Constants (page.tsx lines 21–25) -/

def MAX_PLAYERS : Nat := 16
def COLS : Nat := 7
def ROWS : Nat := 5
def TILE_COUNT : Nat := COLS * ROWS
def WIN_INDEX : Nat := TILE_COUNT - 1

/-- `clamp(n, a, b) = Math.max(a, Math.min(b, n))` (page.tsx line 38). -/
def clamp (n a b : Int) : Int := max a (min b n)

/-! ## Tiles (page.tsx lines 59–161) -/

inductive TileType where
  | start
  | path
  | safe
  | sip2
  | sip3
  | sip5
  | sip10
  | chug10s
  | shotgun
  | finish
  | back5
  | snap
  | tiktok
  | dare
  | win
  deriving DecidableEq, Repr

structure Tile where
  i : Nat
  type : TileType
  label : String
  deriving DecidableEq, Repr

structure TileText where
  title : String
  subtitle : String
  deriving DecidableEq, Repr

/-- The `TILE_TEXT` record (page.tsx lines 78–109). -/
def TILE_TEXT : TileType → TileText
  | .start => ⟨"SENDY", "Everyone starts here. Don’t be soft."⟩
  | .path => ⟨"Move", "Nothing special. Next up."⟩
  | .safe => ⟨"SAFE ✅", "No effect. You’re chilling."⟩
  | .sip2 => ⟨"2 SIPS", "Take 2 sips."⟩
  | .sip3 => ⟨"3 SIPS", "Take 3 sips."⟩
  | .sip5 => ⟨"5 SIPS", "Take 5 sips."⟩
  | .sip10 => ⟨"10 SIPS", "Take 10 sips. Count ’em."⟩
  | .chug10s => ⟨"CHUG ⏱️", "Chug your drink for 10 seconds."⟩
  | .shotgun => ⟨"SHOTGUN 💥", "Shotgun a new drink."⟩
  | .finish => ⟨"FINISH 🚨", "Finish your drink."⟩
  | .back5 => ⟨"BACK 5 ⬅️", "Go back 5 spaces (and resolve that tile)."⟩
  | .snap => ⟨"SNAP 📸",
      "Other players can post something on your Snapchat story for 10 minutes. You must start the timer to continue."⟩
  | .tiktok => ⟨"TIKTOK 🎬",
      "Other players pick a TikTok for you to do. You must start the 60-minute timer to continue."⟩
  | .dare => ⟨"DARE 🎯", "Other players pick a dare for you to do."⟩
  | .win => ⟨"WIN 🏁", "You must land exactly here to win."⟩

/-- The initial all-`path` board (page.tsx lines 112–116). -/
def baseBoard : List Tile :=
  (List.range TILE_COUNT).map (fun i => ⟨i, .path, toString i⟩)

/-- The `set` helper inside `buildBoard` (page.tsx lines 118–121):
out-of-range indices are a no-op. -/
def setTile (board : List Tile) (i : Nat) (t : TileType) (label : String) : List Tile :=
  if i < TILE_COUNT then board.set i ⟨i, t, label⟩ else board

/-- `buildBoard()` (page.tsx lines 111–161), applying the static
assignment table in source order. -/
def buildBoard : List Tile :=
  let b := baseBoard
  let b := setTile b 0 .start "START"
  let b := setTile b WIN_INDEX .win "WIN"
  let b := [1, 14, 29].foldl (fun acc i => setTile acc i .safe "SAFE") b
  let b := [6, 22].foldl (fun acc i => setTile acc i .sip2 "2") b
  let b := [2, 7, 11, 15, 18, 21, 30].foldl (fun acc i => setTile acc i .sip3 "3") b
  let b := [4, 19, 25, 28].foldl (fun acc i => setTile acc i .sip5 "5") b
  let b := [9, 16].foldl (fun acc i => setTile acc i .sip10 "10") b
  let b := [20, 26].foldl (fun acc i => setTile acc i .chug10s "CHUG") b
  let b := setTile b 24 .shotgun "SHOTGUN"
  let b := [32, 33].foldl (fun acc i => setTile acc i .finish "FINISH") b
  let b := setTile b 12 .back5 "BACK 5"
  let b := setTile b 10 .snap "SNAP"
  let b := setTile b 17 .snap "SNAP"
  let b := setTile b 8 .dare "DARE"
  let b := setTile b 13 .tiktok "TIKTOK"
  let b := setTile b 27 .tiktok "TIKTOK"
  b

/-! ## Game types (page.tsx lines 171–197) -/

structure Player where
  id : String
  name : String
  pos : Nat
  color : String
  deriving DecidableEq, Repr

structure GameTimer where
  id : String
  label : String
  endsAt : Int
  deriving DecidableEq, Repr

/-- `PopupAction` (page.tsx lines 177–180); `cont` is the source's
`\x7b kind: "continue" \x7d` variant. -/
inductive PopupAction where
  | cont
  | startSnapTimer
  | startTikTokTimer
  deriving DecidableEq, Repr

structure Popup where
  title : String
  subtitle : String
  button : String
  action : PopupAction
  deriving DecidableEq, Repr

inductive Phase where
  | lobby
  | playing
  | finished
  deriving DecidableEq, Repr

structure GameState where
  phase : Phase
  board : List Tile
  players : List Player
  current : Nat
  passScreen : Bool
  lastRoll : Option Nat
  popup : Option Popup
  timers : List GameTimer
  winnerName : Option String
  animating : Bool
  deriving DecidableEq, Repr

/-- `initialState()` (page.tsx lines 199–209). -/
def initialState : GameState where
  phase := .lobby
  board := buildBoard
  players := []
  current := 0
  passScreen := false
  lastRoll := none
  popup := none
  timers := []
  winnerName := none
  animating := false

/-! ## Persistence (page.tsx lines 211–233)

The durable key-value store holds at most one value under the fixed
key `sendy_state_v1`; we model the store's content as
`Option GameState` threaded explicitly through the operations that
touch it (`clearSaved` becomes setting it to `none`). The raw stored
value, as seen by `loadState`, is modelled by `StoredValue` below:
`JSON.parse` can throw (`malformed`), can yield a falsy value that
fails the `!parsed` test (`nullish`), or can yield an object in which
the `board` and `players` fields may each be missing/null (`Option`). -/

structure ParsedSnapshot where
  phase : Phase
  board : Option (List Tile)
  players : Option (List Player)
  current : Nat
  passScreen : Bool
  lastRoll : Option Nat
  popup : Option Popup
  timers : List GameTimer
  winnerName : Option String
  animating : Bool
  deriving DecidableEq, Repr

inductive StoredValue where
  | absent
  | malformed
  | nullish
  | obj (p : ParsedSnapshot)
  deriving DecidableEq, Repr

/-- `loadState()` (page.tsx lines 217–227): absent raw value,
a parse failure, a falsy parse result, or a parse missing the
`board` or `players` field all yield `none`; a parse with both
fields present yields the session. Total, hence crash-free. -/
def loadState (v : StoredValue) : Option GameState :=
  match v with
  | .absent => none
  | .malformed => none
  | .nullish => none
  | .obj p =>
    match p.board, p.players with
    | some b, some ps =>
        some { phase := p.phase, board := b, players := ps, current := p.current,
               passScreen := p.passScreen, lastRoll := p.lastRoll, popup := p.popup,
               timers := p.timers, winnerName := p.winnerName, animating := p.animating }
    | _, _ => none

/-! ## Session operations -/

/-- `newGame()` (page.tsx lines 588–591): `clearSaved()` then reset
to `initialState()`. Result is (new game state, new stored value). -/
def newGame : GameState × Option GameState := (initialState, none)

/-- The `BACK TO LOBBY` button handler (page.tsx lines 823–827):
`clearSaved()` then keep the whole state except phase/passScreen/
popup/winnerName. Players (and their positions) are untouched. -/
def backToLobby (s : GameState) : GameState × Option GameState :=
  ({ s with phase := .lobby, passScreen := false, popup := none, winnerName := none }, none)

/-- JavaScript's `String.prototype.trim`: drop whitespace from both
ends, modelled character-wise. -/
def jsTrim (s : String) : String :=
  String.mk (((s.data.dropWhile Char.isWhitespace).reverse.dropWhile
    Char.isWhitespace).reverse)

/-- JavaScript's `String.prototype.toLowerCase`, modelled as the ASCII
per-character lowering (the names in play are plain text). -/
def jsToLower (s : String) : String :=
  String.mk (s.data.map Char.toLower)

/-- `addPlayer(nameRaw)` (page.tsx lines 612–622). The randomly picked
color and the generated id are inputs (the source draws them from the
RNG and `crypto.randomUUID()`). -/
def addPlayer (s : GameState) (nameRaw : String) (newId : String) (color : String) : GameState :=
  let name := jsTrim nameRaw
  if name = "" then s
  else if MAX_PLAYERS ≤ s.players.length then s
  else if s.players.any (fun p => jsToLower p.name == jsToLower name) then s
  else { s with players := s.players ++ [{ id := newId, name := name, pos := 0, color := color }] }

/-- `clearTimer(id)` (page.tsx lines 636–638). -/
def clearTimer (s : GameState) (id : String) : GameState :=
  { s with timers := s.timers.filter (fun t => t.id ≠ id) }

/-- The body of the periodic timer-sweep effect (page.tsx lines
578–584): while phase is `playing`, every 5000 ms the timer list is
filtered down to the timers with `endsAt > now`. -/
def sweepTick (s : GameState) (now : Int) : GameState :=
  { s with timers := s.timers.filter (fun x => now < x.endsAt) }

/-! ## Movement (page.tsx lines 644–669) -/

/-- The `path` array computed in `animateMove` (page.tsx lines
653–660): straight run to `rawTarget` when it does not pass
`WIN_INDEX`, otherwise run to `WIN_INDEX` then bounce back one cell
per overshoot step. -/
def movePath (start steps : Nat) : List Nat :=
  let rawTarget := start + steps
  if rawTarget ≤ WIN_INDEX then
    List.range' (start + 1) (rawTarget - start)
  else
    List.range' (start + 1) (WIN_INDEX - start) ++
      (List.range' 1 (rawTarget - WIN_INDEX)).map (fun b => WIN_INDEX - b)

/-- The position the player occupies once the movement loop finishes:
the last entry of `movePath` (the loop writes each entry in turn),
or the start position if the path is empty. -/
def landingPos (start steps : Nat) : Nat :=
  ((movePath start steps).getLast?).getD start

/-- One iteration of the movement loop (page.tsx lines 662–669): set
the current player's position to `pos` and record the roll. -/
def moveStep (steps : Nat) (acc : GameState) (pos : Nat) : GameState :=
  match acc.players[acc.current]? with
  | none => acc
  | some me =>
      { acc with players := acc.players.set acc.current { me with pos := pos },
                 lastRoll := some steps }

/-! ## Landing resolution (page.tsx lines 673–729) -/

/-- `popupFor` (page.tsx lines 679–684), with the source's default
button and action. -/
def popupFor (t : TileType) (button : String := "CONTINUE")
    (action : PopupAction := .cont) : Popup :=
  { title := (TILE_TEXT t).title, subtitle := (TILE_TEXT t).subtitle,
    button := button, action := action }

/-- `resolveTile` (page.tsx lines 686–718): builds the post-landing
state from the (possibly relocated) player list and the landed tile
type. `s` is the state at resolution time, `players` the updated
player list, `me` the current player entry within it. -/
def resolveTile (s : GameState) (players : List Player) (me : Player)
    (t : TileType) : GameState :=
  if t = .win then
    { s with players := players, phase := .finished, winnerName := some me.name,
             popup := some (popupFor .win "NEW GAME"), animating := false }
  else if t = .snap then
    { s with players := players,
             popup := some (popupFor .snap "START 10:00 TIMER" .startSnapTimer),
             animating := false }
  else if t = .tiktok then
    { s with players := players,
             popup := some (popupFor .tiktok "START 60:00 TIMER" .startTikTokTimer),
             animating := false }
  else if t = .dare then
    { s with players := players, popup := some (popupFor .dare), animating := false }
  else
    { s with players := players, popup := some (popupFor t), animating := false }

/-- The landing-resolution state update (page.tsx lines 674–729):
look up the current player's tile; a `back5` tile relocates the
player to `clamp(pos - 5, 0, WIN_INDEX)` and resolves the tile now
occupied (once — `resolveTile` has no `back5` branch of its own);
any other tile resolves directly. The `none` fallbacks correspond to
out-of-range accesses on which the source would fault; they are
unreachable under the theorems' hypotheses. -/
def resolveLanding (s : GameState) : GameState :=
  match s.players[s.current]? with
  | none => s
  | some me0 =>
    match s.board[me0.pos]? with
    | none => s
    | some tile =>
      if tile.type = .back5 then
        let newPos := (clamp ((me0.pos : Int) - 5) 0 (WIN_INDEX : Int)).toNat
        let me := { me0 with pos := newPos }
        let players := s.players.set s.current me
        match s.board[newPos]? with
        | none => { s with players := players }
        | some landed => resolveTile s players me landed.type
      else
        resolveTile s s.players me0 tile.type

/-- `animateMove(steps)` end-to-end (page.tsx lines 644–730): mark
animating, walk the path (each step a state update), then resolve the
landing. The `none` fallback is the out-of-range player read on which
the source would fault. -/
def animateMove (s : GameState) (steps : Nat) : GameState :=
  match s.players[s.current]? with
  | none => s
  | some p0 =>
      resolveLanding
        ((movePath p0.pos steps).foldl (moveStep steps) { s with animating := true })

/-! ## Turn advance and acknowledgement (page.tsx lines 742–782) -/

/-- `advanceTurn()` (page.tsx lines 742–750). -/
def advanceTurn (s : GameState) : GameState :=
  { s with current := (s.current + 1) % s.players.length,
           passScreen := true, popup := none, lastRoll := none }

/-- `handlePopupPress()` (page.tsx lines 752–782). `storage` is the
persisted snapshot slot, `now` the wall clock, `newId` the id the
source draws from `crypto.randomUUID()`. Returns the new game state
and new stored value. The `none` fallback on the player lookup is the
out-of-range read on which the source would fault. -/
def handlePopupPress (s : GameState) (storage : Option GameState)
    (now : Int) (newId : String) : GameState × Option GameState :=
  match s.popup with
  | none => (s, storage)
  | some popup =>
    if s.phase = .finished then newGame
    else
      match popup.action with
      | .startSnapTimer =>
        match s.players[s.current]? with
        | none => (s, storage)
        | some p =>
          let timer : GameTimer :=
            { id := newId, label := "SNAP: " ++ p.name, endsAt := now + 10 * 60 * 1000 }
          (advanceTurn { s with timers := timer :: s.timers }, storage)
      | .startTikTokTimer =>
        match s.players[s.current]? with
        | none => (s, storage)
        | some p =>
          let timer : GameTimer :=
            { id := newId, label := "TIKTOK: " ++ p.name, endsAt := now + 60 * 60 * 1000 }
          (advanceTurn { s with timers := timer :: s.timers }, storage)
      | .cont => (advanceTurn s, storage)

/-! ## Concrete scenario states (used by witnesses and counterexamples) -/

/-- A playing state with one player sitting on tile 5. -/
def lobbyCexState : GameState :=
  { initialState with
      phase := .playing,
      players := [⟨"p1", "Ana", 5, "#FF3B30"⟩] }

/-- A timer that expired at wall-clock time 1000. -/
def expiredTimer : GameTimer := ⟨"t1", "SNAP: Ana", 1000⟩

/-- A playing state holding only the expired timer. -/
def sweepCexState : GameState :=
  { initialState with phase := .playing, timers := [expiredTimer] }

/-- A parsed snapshot carrying both a board and a players field. -/
def goodSnapshot : ParsedSnapshot where
  phase := .lobby
  board := some buildBoard
  players := some []
  current := 0
  passScreen := false
  lastRoll := none
  popup := none
  timers := []
  winnerName := none
  animating := false

/-- A lobby with the single player `Amy`. -/
def amyState : GameState := addPlayer initialState "Amy" "id1" "#FF3B30"

/-- A playing state whose popup requires starting the snap timer. -/
def snapAckState : GameState :=
  { initialState with
      phase := .playing, current := 0,
      players := [⟨"p1", "Ana", 10, "#FF3B30"⟩, ⟨"p2", "Bob", 0, "#FF9500"⟩],
      popup := some (popupFor .snap "START 10:00 TIMER" .startSnapTimer) }

/-- A playing state whose popup is a plain confirmation (dare tile). -/
def dareAckState : GameState :=
  { initialState with
      phase := .playing, current := 1,
      players := [⟨"p1", "Ana", 10, "#FF3B30"⟩, ⟨"p2", "Bob", 8, "#FF9500"⟩],
      popup := some (popupFor .dare) }

/-- A playing state whose current player stands one tile short of the win
tile. -/
def preWinState : GameState :=
  { initialState with
      phase := .playing, current := 0,
      players := [⟨"p1", "Ana", 33, "#FF3B30"⟩, ⟨"p2", "Bob", 3, "#FF9500"⟩] }

/-- A playing state whose current player stands on the standard board's
back-5 tile (index 12). -/
def back5State : GameState :=
  { initialState with
      phase := .playing, current := 0,
      players := [⟨"p1", "Ana", 12, "#FF3B30"⟩, ⟨"p2", "Bob", 0, "#FF9500"⟩] }

/-- A board identical to the standard one except that tile 7 — the
relocation target of the back-5 tile at 12 — is itself back-5. Such a
board is loadable through the persisted snapshot, which accepts any
parsed board. -/
def chainBoard : List Tile := setTile buildBoard 7 .back5 "BACK 5"

/-- A playing state on `chainBoard` whose current player stands on the
back-5 tile at index 12. -/
def chainState : GameState :=
  { initialState with
      board := chainBoard, phase := .playing,
      players := [⟨"p1", "Ana", 12, "#FF3B30"⟩], current := 0 }

/-- A finished state showing the win popup. -/
def finishedState : GameState :=
  { initialState with
      phase := .finished, current := 0,
      players := [⟨"p1", "Ana", 34, "#FF3B30"⟩, ⟨"p2", "Bob", 3, "#FF9500"⟩],
      winnerName := some "Ana",
      popup := some (popupFor .win "NEW GAME") }

/-! ## Helper lemmas -/

theorem lt_length_of_getElem?_some {α : Type} {l : List α} {i : Nat} {a : α}
    (h : l[i]? = some a) : i < l.length := by
  by_contra hlt
  rw [List.getElem?_eq_none (Nat.le_of_not_lt hlt)] at h
  exact Option.noConfusion h

theorem getLastD_cons_eq {α : Type} :
    ∀ (l : List α) (a x : α), ((a :: l).getLast?).getD x = (l.getLast?).getD a
  | [], _, _ => rfl
  | b :: t, a, x => by
      rw [List.getLast?_cons_cons, getLastD_cons_eq t b x, getLastD_cons_eq t b a]

/-- Walking the movement loop over a path list preserves phase, board and
current index, and leaves the current player at the last path entry. -/
theorem moveFold_spec (steps : Nat) :
    ∀ (l : List Nat) (s : GameState) (me : Player),
      s.players[s.current]? = some me →
      (l.foldl (moveStep steps) s).phase = s.phase ∧
      (l.foldl (moveStep steps) s).board = s.board ∧
      (l.foldl (moveStep steps) s).current = s.current ∧
      (l.foldl (moveStep steps) s).players[s.current]? =
        some { me with pos := (l.getLast?).getD me.pos }
  | [], _, _, h => ⟨rfl, rfl, rfl, h⟩
  | a :: t, s, me, h => by
      have hlt : s.current < s.players.length := lt_length_of_getElem?_some h
      have hstep : moveStep steps s a =
          { s with players := s.players.set s.current { me with pos := a },
                   lastRoll := some steps } := by
        simp [moveStep, h]
      have h2 : (moveStep steps s a).players[(moveStep steps s a).current]? =
          some { me with pos := a } := by
        rw [hstep]
        exact List.getElem?_set_eq_of_lt _ hlt
      obtain ⟨ih1, ih2, ih3, ih4⟩ :=
        moveFold_spec steps t (moveStep steps s a) { me with pos := a } h2
      rw [List.foldl_cons]
      refine ⟨?_, ?_, ?_, ?_⟩
      · rw [ih1, hstep]
      · rw [ih2, hstep]
      · rw [ih3, hstep]
      · rw [getLastD_cons_eq]
        have hcur : (moveStep steps s a).current = s.current := by rw [hstep]
        rw [← hcur]
        exact ih4

/-- On an overshooting roll within the claim's bounds, the bounce-back
lands in [28, 33]. -/
theorem landing_overshoot_bounds :
    ∀ p < 35, ∀ s < 7, 1 ≤ s → 34 < p + s →
      28 ≤ landingPos p s ∧ landingPos p s < 34 := by decide

/-- The standard board holds neither a win nor a back-5 tile anywhere in
[28, 33]. -/
theorem buildBoard_mid_not_special :
    ∀ n < 34, 28 ≤ n →
      (buildBoard[n]?).map Tile.type ≠ some TileType.win ∧
      (buildBoard[n]?).map Tile.type ≠ some TileType.back5 := by decide

/-- The standard board's only back-5 tile sits at index 12. -/
theorem buildBoard_back5_at :
    ∀ n < 35, (buildBoard[n]?).map Tile.type = some TileType.back5 → n = 12 := by
  decide

/-- Resolving any non-win tile leaves the phase unchanged. -/
theorem resolveTile_phase (s : GameState) (pl : List Player) (me : Player)
    (t : TileType) (h : t ≠ .win) : (resolveTile s pl me t).phase = s.phase := by
  unfold resolveTile
  rw [if_neg h]
  split_ifs <;> rfl

/-- Resolving a tile installs exactly the player list it is handed. -/
theorem resolveTile_players (s : GameState) (pl : List Player) (me : Player)
    (t : TileType) : (resolveTile s pl me t).players = pl := by
  unfold resolveTile
  split_ifs <;> rfl

/-! ## Claim theorems -/

/-- Claim C1: for every player position p in [0,34] and die result s in
[1,6], the movement loop leaves the player at p+s when p+s ≤ 34, and
otherwise at 34 − ((p+s) − 34) (the truncated subtraction is exactly the
clamp to ≥ 0); the resulting position is always within [0,34]. -/
theorem roll_position_formula :
    ∀ p < 35, ∀ s < 7, 1 ≤ s →
      landingPos p s = (if p + s ≤ 34 then p + s else 34 - (p + s - 34)) ∧
      landingPos p s ≤ 34 := by decide

/-- Witness for C1 at p = 30, s = 6 (the spec's own worked example:
raw target 36, overshoot 2, final position 32). -/
theorem roll_position_formula_w :
    landingPos 30 6 = (if 30 + 6 ≤ 34 then 30 + 6 else 34 - (30 + 6 - 34)) ∧
    landingPos 30 6 ≤ 34 :=
  roll_position_formula 30 (by decide) 6 (by decide) (by decide)

/-- Claim C4 counterexample: an expired timer (endsAt = 1000, now = 2000)
is in the session's timer list, yet the periodic sweep that runs during the
playing phase removes it without any explicit clear — the timer list does
not retain it. -/
theorem sweep_deletes_expired_cex :
    expiredTimer.endsAt < 2000 ∧
    expiredTimer ∈ sweepCexState.timers ∧
    (sweepTick sweepCexState 2000).timers = [] := by decide

/-- Claim C4 (amended): during the playing phase the periodic sweep keeps
exactly the timers whose endsAt is still in the future — an expired timer
is removed automatically; explicit clearing removes exactly the timers with
the given id. -/
theorem timer_removal (s : GameState) (now : Int) (t : GameTimer) (id : String) :
    (t ∈ (sweepTick s now).timers ↔ t ∈ s.timers ∧ now < t.endsAt) ∧
    (t ∈ (clearTimer s id).timers ↔ t ∈ s.timers ∧ t.id ≠ id) := by
  constructor <;> simp [sweepTick, clearTimer, List.mem_filter]

/-- Claim C7: addPlayer is a no-op when the trimmed name is empty, the
roster is full (16), or the name duplicates an existing one
case-insensitively; otherwise it appends exactly one player at position 0. -/
theorem addPlayer_spec (s : GameState) (nameRaw newId color : String) :
    (jsTrim nameRaw = "" → addPlayer s nameRaw newId color = s) ∧
    (MAX_PLAYERS ≤ s.players.length → addPlayer s nameRaw newId color = s) ∧
    ((∃ p ∈ s.players, jsToLower p.name = jsToLower (jsTrim nameRaw)) →
       addPlayer s nameRaw newId color = s) ∧
    (jsTrim nameRaw ≠ "" → s.players.length < MAX_PLAYERS →
       (∀ p ∈ s.players, jsToLower p.name ≠ jsToLower (jsTrim nameRaw)) →
       (addPlayer s nameRaw newId color).players =
         s.players ++ [{ id := newId, name := jsTrim nameRaw, pos := 0, color := color }]) := by
  refine ⟨?_, ?_, ?_, ?_⟩
  · intro h
    unfold addPlayer
    rw [if_pos h]
  · intro h
    unfold addPlayer
    by_cases h1 : jsTrim nameRaw = ""
    · rw [if_pos h1]
    · rw [if_neg h1, if_pos h]
  · rintro ⟨p, hp, he⟩
    unfold addPlayer
    by_cases h1 : jsTrim nameRaw = ""
    · rw [if_pos h1]
    · rw [if_neg h1]
      by_cases h2 : MAX_PLAYERS ≤ s.players.length
      · rw [if_pos h2]
      · rw [if_neg h2, if_pos (List.any_eq_true.mpr ⟨p, hp, by simp [he]⟩)]
  · intro h1 h2 h3
    unfold addPlayer
    rw [if_neg h1, if_neg (Nat.not_le.mpr h2), if_neg ?_]
    intro hany
    obtain ⟨p, hp, he⟩ := List.any_eq_true.mp hany
    exact h3 p hp (by simpa using he)

/-- Witness for C7: after adding `Amy`, adding `amy` is rejected as a
case-insensitive duplicate. -/
theorem addPlayer_spec_w : addPlayer amyState "amy" "id2" "#FF9500" = amyState :=
  (addPlayer_spec amyState "amy" "id2" "#FF9500").2.2.1 (by decide)

/-- Claim C8 counterexample: after BACK TO LOBBY from a state whose player
stands on tile 5, the phase is lobby but the player's position is still 5 —
positions are not reinitialized to 0. -/
theorem backToLobby_keeps_positions_cex :
    (backToLobby lobbyCexState).1.phase = .lobby ∧
    (backToLobby lobbyCexState).1.players.map Player.pos = [5] ∧
    ¬ (∀ p ∈ (backToLobby lobbyCexState).1.players, p.pos = 0) := by decide

/-- Claim C8 (amended): BACK TO LOBBY keeps the roster entirely unchanged
(positions included) while setting phase to lobby and clearing the saved
snapshot; the reset (new game) wipes to a fresh empty session; whenever any
player exists the two results remain distinguishable. -/
theorem lobby_vs_reset (s : GameState) :
    (backToLobby s).1.players = s.players ∧
    (backToLobby s).1.phase = .lobby ∧
    (backToLobby s).2 = none ∧
    newGame.1.players = [] ∧
    newGame.1.phase = .lobby ∧
    newGame.2 = none ∧
    (s.players ≠ [] → (backToLobby s).1.players ≠ newGame.1.players) := by
  refine ⟨rfl, rfl, rfl, rfl, rfl, rfl, ?_⟩
  intro h
  simpa [backToLobby, newGame, initialState] using h

/-- Witness for C8 (amended) on the concrete one-player state. -/
theorem lobby_vs_reset_w :
    (backToLobby lobbyCexState).1.players = lobbyCexState.players ∧
    (backToLobby lobbyCexState).1.phase = .lobby ∧
    (backToLobby lobbyCexState).2 = none ∧
    newGame.1.players = [] ∧
    newGame.1.phase = .lobby ∧
    newGame.2 = none ∧
    (backToLobby lobbyCexState).1.players ≠ newGame.1.players :=
  have h := lobby_vs_reset lobbyCexState
  ⟨h.1, h.2.1, h.2.2.1, h.2.2.2.1, h.2.2.2.2.1, h.2.2.2.2.2.1,
   h.2.2.2.2.2.2 (by decide)⟩

/-- Claim C9: loading the persisted snapshot is total (never crashes) and
returns no session when the stored value is absent, unparseable, falsy, or
lacks the board or players field; a parse with both fields yields the
session. -/
theorem loadState_guard :
    loadState .absent = none ∧
    loadState .malformed = none ∧
    loadState .nullish = none ∧
    (∀ p : ParsedSnapshot, p.board = none → loadState (.obj p) = none) ∧
    (∀ p : ParsedSnapshot, p.players = none → loadState (.obj p) = none) ∧
    (∀ (p : ParsedSnapshot) (b : List Tile) (ps : List Player),
       p.board = some b → p.players = some ps →
       loadState (.obj p) =
         some { phase := p.phase, board := b, players := ps, current := p.current,
                passScreen := p.passScreen, lastRoll := p.lastRoll, popup := p.popup,
                timers := p.timers, winnerName := p.winnerName,
                animating := p.animating }) := by
  refine ⟨rfl, rfl, rfl, ?_, ?_, ?_⟩
  · intro p h
    cases hp : p.players <;> simp [loadState, h, hp]
  · intro p h
    cases hb : p.board <;> simp [loadState, h, hb]
  · intro p b ps hb hps
    simp [loadState, hb, hps]

/-- Witness for C9: a snapshot holding the standard board and an empty
roster loads back as the corresponding session. -/
theorem loadState_guard_w :
    loadState (.obj goodSnapshot) = some initialState :=
  loadState_guard.2.2.2.2.2 goodSnapshot buildBoard [] rfl rfl

/-- Claim C5: confirming an acknowledgement whose required action starts a
timer prepends exactly one timer — with expiry now + 600000 ms for the snap
action, now + 3600000 ms for the tiktok action — and advances the turn. -/
theorem ack_timer_spec (s : GameState) (storage : Option GameState) (now : Int)
    (newId : String) (popup : Popup) (p : Player)
    (hpop : s.popup = some popup) (hph : s.phase ≠ .finished)
    (hp : s.players[s.current]? = some p) :
    (popup.action = .startSnapTimer →
      (handlePopupPress s storage now newId).1.timers =
        { id := newId, label := "SNAP: " ++ p.name, endsAt := now + 600000 } :: s.timers ∧
      (handlePopupPress s storage now newId).1.timers.length = s.timers.length + 1 ∧
      (handlePopupPress s storage now newId).1.current = (s.current + 1) % s.players.length ∧
      (handlePopupPress s storage now newId).1.passScreen = true) ∧
    (popup.action = .startTikTokTimer →
      (handlePopupPress s storage now newId).1.timers =
        { id := newId, label := "TIKTOK: " ++ p.name, endsAt := now + 3600000 } :: s.timers ∧
      (handlePopupPress s storage now newId).1.timers.length = s.timers.length + 1 ∧
      (handlePopupPress s storage now newId).1.current = (s.current + 1) % s.players.length ∧
      (handlePopupPress s storage now newId).1.passScreen = true) := by
  constructor <;> intro ha <;>
    simp [handlePopupPress, hpop, hph, ha, hp, advanceTurn]

/-- Witness for C5 on the concrete snap-acknowledgement state. -/
theorem ack_timer_spec_w :
    (handlePopupPress snapAckState (some snapAckState) 5000 "tid").1.timers =
      { id := "tid", label := "SNAP: " ++ ("Ana" : String),
        endsAt := (5000 : Int) + 600000 } :: snapAckState.timers ∧
    (handlePopupPress snapAckState (some snapAckState) 5000 "tid").1.timers.length =
      snapAckState.timers.length + 1 ∧
    (handlePopupPress snapAckState (some snapAckState) 5000 "tid").1.current =
      (snapAckState.current + 1) % snapAckState.players.length ∧
    (handlePopupPress snapAckState (some snapAckState) 5000 "tid").1.passScreen = true :=
  (ack_timer_spec snapAckState (some snapAckState) 5000 "tid"
      (popupFor .snap "START 10:00 TIMER" .startSnapTimer)
      ⟨"p1", "Ana", 10, "#FF3B30"⟩ rfl (by decide) rfl).1 rfl

/-- Claim C6: confirming any acknowledgement while the game is not
finished advances the current index to (old + 1) mod playerCount, clears
the pending popup, and sets the pass-handoff pending. -/
theorem ack_advances (s : GameState) (storage : Option GameState) (now : Int)
    (newId : String) (popup : Popup)
    (hpop : s.popup = some popup) (hph : s.phase ≠ .finished)
    (h2 : 2 ≤ s.players.length) (hc : s.current < s.players.length) :
    (handlePopupPress s storage now newId).1.current = (s.current + 1) % s.players.length ∧
    (handlePopupPress s storage now newId).1.popup = none ∧
    (handlePopupPress s storage now newId).1.passScreen = true := by
  have hp : s.players[s.current]? = some s.players[s.current] :=
    List.getElem?_eq_getElem hc
  cases hact : popup.action <;>
    simp [handlePopupPress, hpop, hph, hact, hp, advanceTurn]

/-- Witness for C6 on the concrete dare-acknowledgement state (current
player index 1 of 2 wraps to 0). -/
theorem ack_advances_w :
    (handlePopupPress dareAckState (some dareAckState) 5000 "tid").1.current =
      (dareAckState.current + 1) % dareAckState.players.length ∧
    (handlePopupPress dareAckState (some dareAckState) 5000 "tid").1.popup = none ∧
    (handlePopupPress dareAckState (some dareAckState) 5000 "tid").1.passScreen = true :=
  ack_advances dareAckState (some dareAckState) 5000 "tid" (popupFor .dare)
    rfl (by decide) (by decide) (by decide)

/-- Claim C10: pressing the win popup's acknowledgement in a finished game
clears the persisted snapshot and replaces the whole session with the
initial state: lobby phase, empty roster, no timers, no popup, and the
freshly built board. -/
theorem finished_ack_resets (s : GameState) (storage : Option GameState)
    (now : Int) (newId : String) (popup : Popup)
    (hph : s.phase = .finished) (hpop : s.popup = some popup) :
    handlePopupPress s storage now newId = (initialState, none) ∧
    initialState.phase = .lobby ∧ initialState.players = [] ∧
    initialState.timers = [] ∧ initialState.popup = none ∧
    initialState.board = buildBoard := by
  refine ⟨?_, rfl, rfl, rfl, rfl, rfl⟩
  simp [handlePopupPress, hpop, hph, newGame]

/-- Claim C2: a roll whose final position is exactly 34 sets phase to
finished and winnerName to the current player's name; a roll overshooting
34 lands strictly below 34 and leaves the phase unchanged (an overshoot
never wins). -/
theorem exact_landing_wins (s : GameState) (me : Player) (steps : Nat)
    (hb : s.board = buildBoard) (hm : s.players[s.current]? = some me)
    (hp : me.pos ≤ 34) (h1 : 1 ≤ steps) (h6 : steps ≤ 6) :
    (landingPos me.pos steps = 34 →
       (animateMove s steps).phase = .finished ∧
       (animateMove s steps).winnerName = some me.name) ∧
    (34 < me.pos + steps →
       landingPos me.pos steps < 34 ∧ (animateMove s steps).phase = s.phase) := by
  have ham : animateMove s steps =
      resolveLanding ((movePath me.pos steps).foldl (moveStep steps)
        { s with animating := true }) := by
    simp [animateMove, hm]
  obtain ⟨hph, hbd, hcur, hlook⟩ :=
    moveFold_spec steps (movePath me.pos steps) { s with animating := true } me hm
  set r : GameState :=
    (movePath me.pos steps).foldl (moveStep steps) { s with animating := true } with hr
  have hrb : r.board = buildBoard := by rw [hbd]; exact hb
  constructor
  · intro h34
    have hlook34 : r.players[({ s with animating := true } : GameState).current]? =
        some { me with pos := (34 : Nat) } := by
      rw [hlook,
        show ((movePath me.pos steps).getLast?).getD me.pos = 34 from h34]
    have hcur34 : r.players[r.current]? = some { me with pos := (34 : Nat) } := by
      rw [hcur]
      exact hlook34
    have hb34 : r.board[(34 : Nat)]? = some ⟨34, TileType.win, "WIN"⟩ := by
      rw [hrb]
      decide
    rw [ham]
    simp [resolveLanding, hcur34, hb34, resolveTile]
  · intro hov
    have hbnd := landing_overshoot_bounds me.pos (by omega) steps (by omega) h1 hov
    refine ⟨hbnd.2, ?_⟩
    obtain ⟨tile, htile⟩ : ∃ t, buildBoard[landingPos me.pos steps]? = some t :=
      ⟨_, List.getElem?_eq_getElem (by
        have hlen : buildBoard.length = 35 := rfl
        omega)⟩
    have hspec := buildBoard_mid_not_special (landingPos me.pos steps) hbnd.2 hbnd.1
    have htw : tile.type ≠ TileType.win := by
      intro hw
      exact hspec.1 (by rw [htile]; simp [hw])
    have htb : tile.type ≠ TileType.back5 := by
      intro hw
      exact hspec.2 (by rw [htile]; simp [hw])
    have hlookL : r.players[({ s with animating := true } : GameState).current]? =
        some { me with pos := landingPos me.pos steps } := hlook
    have hcurL : r.players[r.current]? =
        some { me with pos := landingPos me.pos steps } := by
      rw [hcur]
      exact hlookL
    have hbL : r.board[({ me with pos := landingPos me.pos steps } : Player).pos]? =
        some tile := by
      show r.board[landingPos me.pos steps]? = some tile
      rw [hrb]
      exact htile
    have hred : resolveLanding r =
        resolveTile r r.players { me with pos := landingPos me.pos steps } tile.type := by
      simp only [resolveLanding, hcurL, hbL]
      rw [if_neg htb]
    rw [ham, hred, resolveTile_phase _ _ _ _ htw, hph]

/-- Witness for C2: with two players and the current one on tile 33, a roll
of 1 lands exactly on 34 and finishes the game with that player as winner. -/
theorem exact_landing_wins_w :
    (animateMove preWinState 1).phase = .finished ∧
    (animateMove preWinState 1).winnerName = some "Ana" := by
  have h := (exact_landing_wins preWinState ⟨"p1", "Ana", 33, "#FF3B30"⟩ 1
    rfl rfl (by decide) (by decide) (by decide))
  exact h.1 (by decide)

/-- Claim C3 counterexample: on a board where the back-5 tile's relocation
target is itself back-5 (reachable via a loaded snapshot), resolution stops
after one relocation — the player halts at 7 (not 2) and the back-5 cell's
own popup is shown, so the destination back-5 cell is not relocated and
resolved again. -/
theorem back5_chain_cex :
    (chainState.board[(12 : Nat)]?).map Tile.type = some TileType.back5 ∧
    (chainState.board[(7 : Nat)]?).map Tile.type = some TileType.back5 ∧
    ((resolveLanding chainState).players[(0 : Nat)]?).map Player.pos = some 7 ∧
    ((resolveLanding chainState).players[(0 : Nat)]?).map Player.pos ≠ some 2 ∧
    (resolveLanding chainState).popup = some (popupFor .back5) := by decide

/-- Claim C3 (amended): on the standard board, landing on a move-back-5
cell relocates the player once, to max(0, position − 5) (truncated Nat
subtraction), and resolves the cell now occupied — which is the 3-sips
tile at index 7, never the back-5 cell's own effect — leaving the phase
unchanged. (The standard board's only back-5 tile is index 12, so no
chained relocation can arise; the code itself performs a single,
non-recursive relocation.) -/
theorem back5_single_relocation (s : GameState) (me : Player)
    (hb : s.board = buildBoard) (hm : s.players[s.current]? = some me)
    (ht : (s.board[me.pos]?).map Tile.type = some TileType.back5) :
    ((resolveLanding s).players[s.current]?).map Player.pos = some (me.pos - 5) ∧
    (resolveLanding s).popup = some (popupFor .sip3) ∧
    (resolveLanding s).phase = s.phase := by
  have hlt : s.current < s.players.length := lt_length_of_getElem?_some hm
  obtain ⟨tile, htile, htype⟩ := Option.map_eq_some'.mp ht
  have hp12 : me.pos = 12 := by
    apply buildBoard_back5_at me.pos
    · have h' : me.pos < s.board.length := lt_length_of_getElem?_some htile
      rw [hb] at h'
      have hlen : buildBoard.length = 35 := rfl
      omega
    · rw [← hb]
      exact ht
  have htile12 : s.board[me.pos]? = some ⟨12, TileType.back5, "BACK 5"⟩ := by
    rw [hp12, hb]
    decide
  have hnew : ((clamp ((me.pos : Int) - 5) 0 (WIN_INDEX : Int)).toNat) = 7 := by
    rw [hp12]
    decide
  have htile7 : s.board[(7 : Nat)]? = some ⟨7, TileType.sip3, "3"⟩ := by
    rw [hb]
    decide
  have hred : resolveLanding s =
      resolveTile s (s.players.set s.current { me with pos := 7 })
        { me with pos := 7 } TileType.sip3 := by
    simp only [resolveLanding, hm, htile12]
    rw [if_pos trivial, hnew, htile7]
  refine ⟨?_, ?_, ?_⟩
  · rw [hred, resolveTile_players, List.getElem?_set_eq_of_lt _ hlt]
    simp [hp12]
  · rw [hred]
    simp [resolveTile]
  · rw [hred, resolveTile_phase _ _ _ _ (by decide)]

/-- Witness for C3 (amended) on the concrete state with the current player
on tile 12 of the standard board. -/
theorem back5_single_relocation_w :
    ((resolveLanding back5State).players[back5State.current]?).map Player.pos =
      some (12 - 5) ∧
    (resolveLanding back5State).popup = some (popupFor .sip3) ∧
    (resolveLanding back5State).phase = back5State.phase :=
  back5_single_relocation back5State ⟨"p1", "Ana", 12, "#FF3B30"⟩ rfl rfl (by decide)

/-- Witness for C10 on the concrete finished state with a two-player
roster: the roster does not survive into the new lobby. -/
theorem finished_ack_resets_w :
    handlePopupPress finishedState (some finishedState) 5000 "tid" =
      (initialState, none) ∧
    initialState.phase = .lobby ∧ initialState.players = [] ∧
    initialState.timers = [] ∧ initialState.popup = none ∧
    initialState.board = buildBoard :=
  finished_ack_resets finishedState (some finishedState) 5000 "tid"
    (popupFor .win "NEW GAME") rfl rfl

end Sendy
